import Mathlib

/-!
Verification of the roleplay chat backend (`app.py`).

The program is a FastAPI service with process-wide mutable state:
`chat_history` (a list of role-tagged turns shared by all sessions),
`product_data` (the catalog), `role_scripts` (per-role script lines),
and `session_scores` (a dict from session id to a per-stage counter dict).

The embedding below is a shallow one: the Python dicts become association
lists (preserving insertion order and membership tests, as Python dicts do),
the mutable globals become an explicit `AppState` threaded through the
handlers, and the two delegated calls to the external generative model
become oracle functions carried in an `Env` record: `classify` receives the
literal stage-classification instruction string and returns the raw response
text (`none` = the call raised), and `gen` receives the full transcript and
returns either the reply text or a failure reason.
-/

namespace RoleplayApp

/-- One turn of the shared transcript: `{"role": r, "parts": [t]}`. -/
structure Turn where
  role : String
  parts : List String
deriving DecidableEq, Repr

/-- A catalog record; fields are optional because the code reads them with
`p.get(key, default)`. -/
structure Product where
  name : Option String
  price : Option String
  description : Option String
deriving DecidableEq, Repr

/-- A per-session scoreboard: a Python dict from stage label to count,
modelled as an association list in insertion order. -/
abbrev Scoreboard := List (String × Nat)

/-- The process-wide `session_scores` dict. -/
abbrev SessionScores := List (String × Scoreboard)

/-- Dict lookup: first binding of the key, if any. -/
def aget (k : String) : List (String × α) → Option α
  | [] => none
  | (k', v) :: rest => if k = k' then some v else aget k rest

/-- Dict assignment `d[k] = v`: updates the binding in place if the key is
present, otherwise appends it (Python-dict insertion order). -/
def aset (k : String) (v : α) : List (String × α) → List (String × α)
  | [] => [(k, v)]
  | (k', v') :: rest => if k = k' then (k, v) :: rest else (k', v') :: aset k v rest

/-- The keys of a dict, in insertion order. -/
def akeys (l : List (String × α)) : List String := l.map Prod.fst

/-- The seven valid stage labels, in the order the code lists them. -/
def validStages : List String :=
  ["opening", "discovery", "presentation", "objection_handling", "closing",
   "follow_up", "general"]

/-- The mutable process state: `chat_history`, `product_data`,
`session_scores`. (`role_scripts` is only written at startup, so it lives in
the environment.) -/
structure AppState where
  chat_history : List Turn
  product_data : List Product
  session_scores : SessionScores
deriving DecidableEq, Repr

/-- The fixed environment of a request: the startup-loaded role scripts, the
catalog the lazy `load_local_product_data` call would produce, and the two
oracle functions standing for `model.generate_content`. -/
structure Env where
  role_scripts : String → List String
  loadedCatalog : List Product
  classify : String → Option String
  gen : List Turn → Except String String

/-- The instruction string `detect_conversation_stage` builds and sends. -/
def stage_prompt_of (prompt role : String) : String :=
  "You are a role-play assistant in a " ++ role ++
  " scenario. Based on the following input, identify the stage:\n" ++
  "Options: opening, discovery, presentation, objection_handling, closing, follow_up, general\n" ++
  "Input: \"" ++ prompt ++ "\"\n" ++
  "Return only the stage name."

/-- `detect_conversation_stage(prompt, role)`: delegate to the model; trim and
lowercase the reply; fall back to `"general"` on failure or on an
out-of-vocabulary reply. -/
def detect_conversation_stage (classify : String → Option String)
    (prompt role : String) : String :=
  match classify (stage_prompt_of prompt role) with
  | none => "general"
  | some t =>
    let detected := t.trim.toLower
    if validStages.contains detected then detected else "general"

/-- `update_stage_score(stage, session_id)`: increment only when both the
session and the stage key exist. -/
def update_stage_score (stage session_id : String) (scores : SessionScores) :
    SessionScores :=
  match aget session_id scores with
  | none => scores
  | some sb =>
    match aget stage sb with
    | none => scores
    | some n => aset session_id (aset stage (n + 1) sb) scores

/-- One catalog entry as formatted into the prompt:
`f"- {name} (${price})\n  {description}"` with the code's `.get` defaults. -/
def fmt_product (p : Product) : String :=
  "- " ++ p.name.getD "Unknown" ++ " ($" ++ p.price.getD "N/A" ++ ")\n  " ++
  p.description.getD ""

/-- Python's `sep.join(l)`. -/
def joinSep (sep : String) : List String → String
  | [] => ""
  | [x] => x
  | x :: y :: rest => x ++ sep ++ joinSep sep (y :: rest)

/-- The `products_text` block: first five catalog entries, or the
`"No product data."` placeholder when the join is empty (Python `or`). -/
def products_text_of (pd : List Product) : String :=
  let joined := joinSep "\n\n" ((pd.take 5).map fmt_product)
  if joined = "" then "No product data." else joined

/-- The `script_section` block: empty when the role's script list is empty. -/
def script_section_of (lines : List String) : String :=
  if lines.isEmpty then "" else "\n\nScript:\n" ++ joinSep "\n" lines

/-- The `context` line of the prompt. -/
def context_of (role stage : String) : String :=
  "You are a " ++ role ++ ". You are in the " ++ stage ++ " stage of the role-play."

/-- The `full_prompt` string `generate_response` composes and appends as the
user turn. -/
def full_prompt_of (role stage : String) (pd : List Product)
    (scriptLines : List String) (prompt : String) : String :=
  context_of role stage ++ "\n\nProducts:\n" ++ products_text_of pd ++
  script_section_of scriptLines ++ "\n\nUser: " ++ prompt ++ "\nRespond naturally."

/-- The catalog `generate_response` works with: the global one, lazily
reloaded when empty. -/
def effective_pd (env : Env) (st : AppState) : List Product :=
  if st.product_data.isEmpty then env.loadedCatalog else st.product_data

/-- The stage after the `"auto"` resolution step. -/
def resolved_stage (env : Env) (prompt stage role : String) : String :=
  if stage = "auto" then detect_conversation_stage env.classify prompt role else stage

/-- The user turn `generate_response` appends to the shared transcript. -/
def user_turn (env : Env) (prompt stage role : String) (st : AppState) : Turn :=
  ⟨"user",
   [full_prompt_of role (resolved_stage env prompt stage role) (effective_pd env st)
      (env.role_scripts role) prompt]⟩

/-- `generate_response(prompt, stage, role, session_id)`: lazy catalog reload,
`"auto"` resolution, score bump, prompt composition, append of the user turn,
delegated generation over the whole transcript, append of the model turn on
success, error-marker string on failure. -/
def generate_response (env : Env) (prompt stage role session_id : String)
    (st : AppState) : String × AppState :=
  let pd := effective_pd env st
  let stage' := resolved_stage env prompt stage role
  let scores := update_stage_score stage' session_id st.session_scores
  let hist1 := st.chat_history ++ [user_turn env prompt stage role st]
  match env.gen hist1 with
  | Except.ok text =>
    (text, ⟨hist1 ++ [⟨"model", [text]⟩], pd, scores⟩)
  | Except.error e =>
    ("❌ Response error: " ++ e, ⟨hist1, pd, scores⟩)

/-- The scoreboard `start_session` installs. -/
def zeroScoreboard : Scoreboard :=
  [("opening", 0), ("discovery", 0), ("presentation", 0),
   ("objection_handling", 0), ("closing", 0), ("follow_up", 0), ("general", 0)]

/-- `GET /start`: install a zeroed scoreboard under a fresh identifier (the
`uuid4()` value is a parameter here) and return the identifier. -/
def start_session (session_id : String) (st : AppState) : String × AppState :=
  (session_id, { st with session_scores := aset session_id zeroScoreboard st.session_scores })

/-- The request body of `POST /chat`; `stage` defaults to `"auto"`. -/
structure ChatInput where
  prompt : String
  role : String
  session_id : String
  stage : String := "auto"
deriving DecidableEq, Repr

/-- The success body of `POST /chat`. -/
structure ChatOutput where
  session_id : String
  response : String
  scores : Scoreboard
deriving DecidableEq, Repr

/-- An HTTP error: status code and detail string. -/
abbrev HErr := Nat × String

/-- `POST /chat`: 400 on an unknown session, otherwise run
`generate_response` and return the session's scores. (The final lookup
cannot fail because sessions are never removed; a missing key would be an
uncaught `KeyError`, i.e. a 500.) -/
def chat_handler (env : Env) (data : ChatInput) (st : AppState) :
    Except HErr ChatOutput × AppState :=
  match aget data.session_id st.session_scores with
  | none => (Except.error (400, "Invalid session ID"), st)
  | some _ =>
    let r := generate_response env data.prompt data.stage data.role data.session_id st
    match aget data.session_id r.2.session_scores with
    | none => (Except.error (500, "Internal Server Error"), r.2)
    | some sb => (Except.ok ⟨data.session_id, r.1, sb⟩, r.2)

/-- The success body of `GET /scores`. -/
structure ScoresOutput where
  session_id : String
  scores : Scoreboard
deriving DecidableEq, Repr

/-- `GET /scores?session_id=...`: 400 on an unknown session, otherwise the
session's scoreboard. Does not modify state. -/
def get_scores (session_id : String) (st : AppState) : Except HErr ScoresOutput :=
  match aget session_id st.session_scores with
  | none => Except.error (400, "Invalid session ID")
  | some sb => Except.ok ⟨session_id, sb⟩

/-- Whether a handler result is an HTTP success. -/
def httpOk : Except HErr ChatOutput → Bool
  | Except.ok _ => true
  | Except.error _ => false

/-- The response text of a successful chat result. -/
def respOf : Except HErr ChatOutput → Option String
  | Except.ok o => some o.response
  | Except.error _ => none

/-- States reachable from process startup: `chat_history` and
`session_scores` start empty (`product_data` is whatever the startup load
produced), and every `/start` or `/chat` request is a step. `GET /scores` and
`GET /` do not modify state. The environment is quantified per step since the
external collaborator may answer differently each time. -/
inductive Reachable : AppState → Prop where
  | init (pd : List Product) : Reachable ⟨[], pd, []⟩
  | start (st : AppState) (sid : String) : Reachable st →
      Reachable (start_session sid st).2
  | chat (st : AppState) (env : Env) (data : ChatInput) : Reachable st →
      Reachable (chat_handler env data st).2

/-- N successive `/chat` calls on one session, all with the same stage field;
each call may use a different environment, prompt and role. -/
def chatN (calls : List (Env × String × String)) (sid stage : String)
    (st : AppState) : AppState :=
  calls.foldl (fun s c => (chat_handler c.1 ⟨c.2.1, c.2.2, sid, stage⟩ s).2) st

/-! ### Association-list lemmas -/

theorem aget_aset_self (k : String) (v : α) (l : List (String × α)) :
    aget k (aset k v l) = some v := by
  induction l with
  | nil => simp [aget, aset]
  | cons hd tl ih =>
    obtain ⟨k', v'⟩ := hd
    by_cases h : k = k'
    · simp [aget, aset, h]
    · simp [aget, aset, h, ih]

theorem aget_aset_ne (k k' : String) (v : α) (l : List (String × α))
    (h : k ≠ k') : aget k (aset k' v l) = aget k l := by
  induction l with
  | nil => simp [aget, aset, h]
  | cons hd tl ih =>
    obtain ⟨k'', v''⟩ := hd
    by_cases h2 : k' = k''
    · subst h2
      simp [aget, aset, h]
    · by_cases h3 : k = k''
      · simp [aget, aset, h2, h3]
      · simp [aget, aset, h2, h3, ih]

theorem akeys_aset_mem (k : String) (v : α) (l : List (String × α))
    (h : (aget k l).isSome) : akeys (aset k v l) = akeys l := by
  induction l with
  | nil => simp [aget] at h
  | cons hd tl ih =>
    obtain ⟨k', v'⟩ := hd
    by_cases h2 : k = k'
    · simp [akeys, aset, h2]
    · simp [aget, h2] at h
      simp [akeys, aset, h2] at ih ⊢
      exact ih h

theorem aget_none_of_not_mem_akeys (k : String) (l : List (String × α))
    (h : k ∉ akeys l) : aget k l = none := by
  induction l with
  | nil => simp [aget]
  | cons hd tl ih =>
    obtain ⟨k', v'⟩ := hd
    simp only [akeys, List.map_cons, List.mem_cons, not_or] at h
    simp only [aget, h.1, if_neg h.1]
    exact ih h.2

/-! ### Behavior of `update_stage_score` -/

theorem update_stage_score_self (stage sid : String) (scores : SessionScores)
    (sb : Scoreboard) (n : Nat) (hsid : aget sid scores = some sb)
    (hstage : aget stage sb = some n) :
    update_stage_score stage sid scores = aset sid (aset stage (n + 1) sb) scores := by
  simp [update_stage_score, hsid, hstage]

theorem update_stage_score_no_stage (stage sid : String) (scores : SessionScores)
    (sb : Scoreboard) (hsid : aget sid scores = some sb)
    (hstage : aget stage sb = none) :
    update_stage_score stage sid scores = scores := by
  simp [update_stage_score, hsid, hstage]

theorem update_stage_score_keeps_session (stage sid sid' : String)
    (scores : SessionScores) (h : (aget sid' scores).isSome) :
    (aget sid' (update_stage_score stage sid scores)).isSome := by
  cases hsid : aget sid scores with
  | none => simpa [update_stage_score, hsid] using h
  | some sb =>
    cases hstage : aget stage sb with
    | none => simpa [update_stage_score, hsid, hstage] using h
    | some n =>
      by_cases h2 : sid' = sid
      · subst h2
        simp [update_stage_score, hsid, hstage, aget_aset_self]
      · simpa [update_stage_score, hsid, hstage,
          aget_aset_ne sid' sid _ scores h2] using h

/-! ### Unfolding lemmas for `generate_response` and `chat_handler` -/

theorem generate_response_scores (env : Env) (prompt stage role sid : String)
    (st : AppState) :
    (generate_response env prompt stage role sid st).2.session_scores =
      update_stage_score (resolved_stage env prompt stage role) sid
        st.session_scores := by
  cases hg : env.gen (st.chat_history ++ [user_turn env prompt stage role st]) with
  | ok t => simp [generate_response, hg]
  | error e => simp [generate_response, hg]

theorem generate_response_ok (env : Env) (prompt stage role sid : String)
    (st : AppState) (t : String)
    (hg : env.gen (st.chat_history ++ [user_turn env prompt stage role st]) =
      Except.ok t) :
    generate_response env prompt stage role sid st =
      (t, ⟨st.chat_history ++ [user_turn env prompt stage role st, ⟨"model", [t]⟩],
        effective_pd env st,
        update_stage_score (resolved_stage env prompt stage role) sid
          st.session_scores⟩) := by
  simp [generate_response, hg]

theorem generate_response_err (env : Env) (prompt stage role sid : String)
    (st : AppState) (e : String)
    (hg : env.gen (st.chat_history ++ [user_turn env prompt stage role st]) =
      Except.error e) :
    generate_response env prompt stage role sid st =
      ("❌ Response error: " ++ e,
       ⟨st.chat_history ++ [user_turn env prompt stage role st],
        effective_pd env st,
        update_stage_score (resolved_stage env prompt stage role) sid
          st.session_scores⟩) := by
  simp [generate_response, hg]

theorem chat_handler_invalid (env : Env) (data : ChatInput) (st : AppState)
    (h : aget data.session_id st.session_scores = none) :
    chat_handler env data st = (Except.error (400, "Invalid session ID"), st) := by
  simp [chat_handler, h]

theorem chat_handler_valid (env : Env) (data : ChatInput) (st : AppState)
    (h : (aget data.session_id st.session_scores).isSome) :
    ∃ sb,
      aget data.session_id
        (generate_response env data.prompt data.stage data.role data.session_id
          st).2.session_scores = some sb ∧
      chat_handler env data st =
        (Except.ok ⟨data.session_id,
          (generate_response env data.prompt data.stage data.role data.session_id
            st).1, sb⟩,
         (generate_response env data.prompt data.stage data.role data.session_id
           st).2) := by
  obtain ⟨sb0, hsb0⟩ := Option.isSome_iff_exists.mp h
  have h2 : (aget data.session_id
      (generate_response env data.prompt data.stage data.role data.session_id
        st).2.session_scores).isSome := by
    rw [generate_response_scores]
    exact update_stage_score_keeps_session _ _ _ _ h
  obtain ⟨sb, hsb⟩ := Option.isSome_iff_exists.mp h2
  refine ⟨sb, hsb, ?_⟩
  simp [chat_handler, hsb0, hsb]

/-! ### The scoreboard-keys invariant -/

/-- Every scoreboard in the store has exactly the seven stage keys, in
creation order. -/
def ScoreKeysOK (scores : SessionScores) : Prop :=
  ∀ sid sb, aget sid scores = some sb → akeys sb = validStages

theorem akeys_zeroScoreboard : akeys zeroScoreboard = validStages := rfl

theorem scoreKeysOK_aset_zero (sid : String) (scores : SessionScores)
    (h : ScoreKeysOK scores) : ScoreKeysOK (aset sid zeroScoreboard scores) := by
  intro sid' sb' hget
  by_cases he : sid' = sid
  · subst he
    rw [aget_aset_self] at hget
    cases hget
    rfl
  · rw [aget_aset_ne _ _ _ _ he] at hget
    exact h _ _ hget

theorem scoreKeysOK_update (stage sid : String) (scores : SessionScores)
    (h : ScoreKeysOK scores) : ScoreKeysOK (update_stage_score stage sid scores) := by
  cases hsid : aget sid scores with
  | none => simpa [update_stage_score, hsid] using h
  | some sb =>
    cases hstage : aget stage sb with
    | none => simpa [update_stage_score, hsid, hstage] using h
    | some n =>
      rw [update_stage_score_self stage sid scores sb n hsid hstage]
      intro sid' sb' hget
      by_cases he : sid' = sid
      · subst he
        rw [aget_aset_self] at hget
        cases hget
        rw [akeys_aset_mem _ _ _ (by simp [hstage])]
        exact h _ _ hsid
      · rw [aget_aset_ne _ _ _ _ he] at hget
        exact h _ _ hget

theorem reachable_scoreKeysOK (st : AppState) (h : Reachable st) :
    ScoreKeysOK st.session_scores := by
  induction h with
  | init pd =>
    intro sid sb hget
    simp [aget] at hget
  | start st sid _ ih =>
    simpa [start_session] using scoreKeysOK_aset_zero sid st.session_scores ih
  | chat st env data _ ih =>
    cases hv : aget data.session_id st.session_scores with
    | none =>
      rw [chat_handler_invalid env data st hv]
      exact ih
    | some sb0 =>
      obtain ⟨sb, _, heq⟩ := chat_handler_valid env data st (by simp [hv])
      rw [heq]
      show ScoreKeysOK (generate_response env data.prompt data.stage data.role
        data.session_id st).2.session_scores
      rw [generate_response_scores]
      exact scoreKeysOK_update _ _ _ ih

/-- A concrete environment used to instantiate theorems on sample inputs:
empty scripts and catalog, a classifier whose call always fails, and a
generator that always answers `"ok"`. -/
def sampleEnv : Env :=
  ⟨fun _ => [], [], fun _ => none, fun _ => Except.ok "ok"⟩

/-! ### Claims -/

/-- C1: for every session identifier returned by `GET /start`, immediately
querying `GET /scores` with that identifier succeeds and returns a scoreboard
with exactly the seven stage labels, in order, each mapped to zero. -/
theorem c1_start_then_scores_all_zero (st : AppState) (fresh : String) :
    get_scores (start_session fresh st).1 (start_session fresh st).2 =
      Except.ok ⟨fresh,
        [("opening", 0), ("discovery", 0), ("presentation", 0),
         ("objection_handling", 0), ("closing", 0), ("follow_up", 0),
         ("general", 0)]⟩ := by
  show get_scores fresh _ = _
  simp [get_scores, start_session, aget_aset_self, zeroScoreboard]

/-- C3: for a never-created session identifier, `GET /scores` fails with the
400 "Invalid session ID" error, and `POST /chat` with that identifier fails
with the same error while leaving the state (transcript and all counters)
unchanged, for every environment — in particular the result does not depend
on the generation oracle, so no generation call is observable. -/
theorem c3_unknown_session_rejected (st : AppState) (env : Env)
    (sid prompt role stg : String)
    (h : aget sid st.session_scores = none) :
    get_scores sid st = Except.error (400, "Invalid session ID") ∧
    chat_handler env ⟨prompt, role, sid, stg⟩ st =
      (Except.error (400, "Invalid session ID"), st) := by
  constructor
  · simp [get_scores, h]
  · simp [chat_handler, h]

/-- Witness for C3 at the empty store and identifier `"nope"`. -/
theorem c3_unknown_session_rejected_witness :
    aget "nope" (AppState.mk [] [] []).session_scores = none ∧
    (get_scores "nope" ⟨[], [], []⟩ = Except.error (400, "Invalid session ID") ∧
     chat_handler sampleEnv ⟨"hi", "seller", "nope", "auto"⟩ ⟨[], [], []⟩ =
       (Except.error (400, "Invalid session ID"), ⟨[], [], []⟩)) :=
  ⟨rfl, c3_unknown_session_rejected ⟨[], [], []⟩ sampleEnv "nope" "hi" "seller"
    "auto" rfl⟩

/-- C5: in every reachable state, every session's scoreboard has exactly the
seven stage keys — none added, none removed — whatever operations ran. -/
theorem c5_scoreboard_keys_invariant (st : AppState) (sid : String)
    (sb : Scoreboard) (h : Reachable st)
    (hget : aget sid st.session_scores = some sb) :
    akeys sb = validStages :=
  reachable_scoreKeysOK st h sid sb hget

/-- A concrete `/chat` request body used to instantiate theorems. -/
def sampleChat1 : ChatInput := ⟨"hi", "seller", "s1", "opening"⟩

/-- The state after `/start` with identifier `"s1"` and one `/chat` turn on
it with explicit stage `"opening"`, under `sampleEnv`. -/
def sampleState1 : AppState :=
  (chat_handler sampleEnv sampleChat1 (start_session "s1" ⟨[], [], []⟩).2).2

/-- Witness for C5 at the state reached by one `/start` followed by one
`/chat` on the fresh session. -/
theorem c5_scoreboard_keys_invariant_witness :
    aget "s1" sampleState1.session_scores =
      some [("opening", 1), ("discovery", 0), ("presentation", 0),
        ("objection_handling", 0), ("closing", 0), ("follow_up", 0),
        ("general", 0)] ∧
    akeys [("opening", 1), ("discovery", 0), ("presentation", 0),
        ("objection_handling", 0), ("closing", 0), ("follow_up", 0),
        ("general", 0)] = validStages :=
  ⟨by decide,
   c5_scoreboard_keys_invariant sampleState1 "s1" _
     (Reachable.chat _ sampleEnv sampleChat1
       (Reachable.start _ "s1" (Reachable.init [])))
     (by decide)⟩

/-- The counter of `stage` in `sid`'s scoreboard, as an observer on the
store. -/
def scoreOf (sid stage : String) (scores : SessionScores) : Option Nat :=
  (aget sid scores).bind (aget stage)

theorem chat_step_scores (env : Env) (p r sid S : String) (st : AppState)
    (sb : Scoreboard) (n : Nat) (hSa : S ≠ "auto")
    (hsid : aget sid st.session_scores = some sb)
    (hn : aget S sb = some n) :
    aget sid ((chat_handler env ⟨p, r, sid, S⟩ st).2).session_scores =
      some (aset S (n + 1) sb) := by
  obtain ⟨sb2, hsb2, heq⟩ :=
    chat_handler_valid env ⟨p, r, sid, S⟩ st (by simp [hsid])
  rw [heq]
  show aget sid (generate_response env p S r sid st).2.session_scores = _
  rw [generate_response_scores]
  have hres : resolved_stage env p S r = S := by simp [resolved_stage, hSa]
  rw [hres, update_stage_score_self S sid _ sb n hsid hn, aget_aset_self]

theorem chatN_explicit (sid S : String) (hSa : S ≠ "auto") :
    ∀ (calls : List (Env × String × String)) (st : AppState) (sb : Scoreboard)
      (n : Nat),
      aget sid st.session_scores = some sb → aget S sb = some n →
      ∃ sb', aget sid (chatN calls sid S st).session_scores = some sb' ∧
        aget S sb' = some (n + calls.length) ∧
        ∀ k, k ≠ S → aget k sb' = aget k sb := by
  intro calls
  induction calls with
  | nil =>
    intro st sb n hsid hn
    exact ⟨sb, hsid, by simpa using hn, fun k _ => rfl⟩
  | cons c cs ih =>
    intro st sb n hsid hn
    have hstep := chat_step_scores c.1 c.2.1 c.2.2 sid S st sb n hSa hsid hn
    obtain ⟨sb', h1, h2, h3⟩ := ih _ _ _ hstep (aget_aset_self S (n + 1) sb)
    refine ⟨sb', h1, ?_, ?_⟩
    · rw [h2]
      congr 1
      simp [List.length_cons]
      omega
    · intro k hk
      rw [h3 k hk, aget_aset_ne _ _ _ _ hk]

/-- C2: for an existing session whose scoreboard holds stage `S` at `n`, with
`S` one of the seven valid labels, after `N` `/chat` calls on that session
all explicitly specifying `S`, the counter for `S` is `n + N` and every other
stage counter `k` of that session is unchanged. -/
theorem c2_explicit_stage_counter (calls : List (Env × String × String))
    (sid S k : String) (st : AppState) (sb : Scoreboard) (n : Nat)
    (hS : S ∈ validStages)
    (hsid : aget sid st.session_scores = some sb)
    (hn : aget S sb = some n)
    (hk : k ≠ S) :
    scoreOf sid S (chatN calls sid S st).session_scores =
      some (n + calls.length) ∧
    scoreOf sid k (chatN calls sid S st).session_scores =
      scoreOf sid k st.session_scores := by
  have hSa : S ≠ "auto" := by
    intro he
    rw [he] at hS
    revert hS
    decide
  obtain ⟨sb', h1, h2, h3⟩ := chatN_explicit sid S hSa calls st sb n hsid hn
  constructor
  · simp [scoreOf, h1, h2]
  · by_cases hkS : k = S
    · exact absurd hkS hk
    · simp [scoreOf, h1, hsid, h3 k hkS]

/-- The store holding exactly the fresh session `"s1"`. -/
def sampleStore1 : AppState := (start_session "s1" ⟨[], [], []⟩).2

/-- Two sample `/chat` calls (environment, prompt, role). -/
def sampleCalls : List (Env × String × String) :=
  [(sampleEnv, "a", "seller"), (sampleEnv, "b", "buyer")]

/-- Witness for C2: two chats with explicit stage `"opening"` on a fresh
session take the `"opening"` counter from 0 to 2 and leave `"closing"`
unchanged. -/
theorem c2_explicit_stage_counter_witness :
    "opening" ∈ validStages ∧
    aget "s1" sampleStore1.session_scores = some zeroScoreboard ∧
    aget "opening" zeroScoreboard = some 0 ∧
    scoreOf "s1" "opening"
      (chatN sampleCalls "s1" "opening" sampleStore1).session_scores =
      some (0 + sampleCalls.length) ∧
    scoreOf "s1" "closing"
      (chatN sampleCalls "s1" "opening" sampleStore1).session_scores =
      scoreOf "s1" "closing" sampleStore1.session_scores :=
  ⟨by decide, by decide, by decide,
   c2_explicit_stage_counter sampleCalls "s1" "opening" "closing" sampleStore1
     zeroScoreboard 0 (by decide) (by decide) (by decide) (by decide)⟩

/-- C4: if the classification call fails, or its trimmed-and-lowercased
result is not one of the seven valid labels, the classifier returns
`"general"`; a `/chat` with stage `"auto"` on a valid session then still
succeeds at the HTTP level and it is the session's `"general"` counter that
is incremented. -/
theorem c4_classifier_fallback_general (env : Env) (p r sid : String)
    (st : AppState) (sb : Scoreboard) (g : Nat)
    (hfail : env.classify (stage_prompt_of p r) = none ∨
      ∀ t, env.classify (stage_prompt_of p r) = some t →
        validStages.contains t.trim.toLower = false)
    (hsid : aget sid st.session_scores = some sb)
    (hg : aget "general" sb = some g) :
    detect_conversation_stage env.classify p r = "general" ∧
    httpOk (chat_handler env ⟨p, r, sid, "auto"⟩ st).1 = true ∧
    aget sid ((chat_handler env ⟨p, r, sid, "auto"⟩ st).2).session_scores =
      some (aset "general" (g + 1) sb) := by
  have hdet : detect_conversation_stage env.classify p r = "general" := by
    rcases hfail with h | h
    · simp [detect_conversation_stage, h]
    · cases hc : env.classify (stage_prompt_of p r) with
      | none => simp [detect_conversation_stage, hc]
      | some t =>
        have hcf := h t hc
        simp [detect_conversation_stage, hc]
        exact fun hmem => absurd hmem (by simpa using hcf)
  have hres : resolved_stage env p "auto" r = "general" := by
    simp [resolved_stage, hdet]
  obtain ⟨sb2, hsb2, heq⟩ :=
    chat_handler_valid env ⟨p, r, sid, "auto"⟩ st (by simp [hsid])
  refine ⟨hdet, ?_, ?_⟩
  · rw [heq]
    rfl
  · rw [heq]
    show aget sid (generate_response env p "auto" r sid st).2.session_scores = _
    rw [generate_response_scores, hres,
      update_stage_score_self "general" sid _ sb g hsid hg, aget_aset_self]

/-- Witness for C4: a classifier whose call fails, on a fresh session. -/
theorem c4_classifier_fallback_general_witness :
    sampleEnv.classify (stage_prompt_of "hi" "seller") = none ∧
    aget "s1" sampleStore1.session_scores = some zeroScoreboard ∧
    aget "general" zeroScoreboard = some 0 ∧
    (detect_conversation_stage sampleEnv.classify "hi" "seller" = "general" ∧
     httpOk (chat_handler sampleEnv ⟨"hi", "seller", "s1", "auto"⟩
       sampleStore1).1 = true ∧
     aget "s1" ((chat_handler sampleEnv ⟨"hi", "seller", "s1", "auto"⟩
       sampleStore1).2).session_scores =
       some (aset "general" (0 + 1) zeroScoreboard)) :=
  ⟨rfl, by decide, by decide,
   c4_classifier_fallback_general sampleEnv "hi" "seller" "s1" sampleStore1
     zeroScoreboard 0 (Or.inl rfl) (by decide) (by decide)⟩

/-- An environment whose generation call always fails with reason
`"boom"`. -/
def failEnv : Env :=
  ⟨fun _ => [], [], fun _ => none, fun _ => Except.error "boom"⟩

/-- C6: when the reply-generation call fails on a valid session, `/chat`
still succeeds at the HTTP level and the body's `response` field is the
literal error-marker string embedding the failure reason. -/
theorem c6_generation_failure_marker (env : Env) (p stg r sid e : String)
    (st : AppState) (sb : Scoreboard)
    (hsid : aget sid st.session_scores = some sb)
    (hgen : env.gen (st.chat_history ++ [user_turn env p stg r st]) =
      Except.error e) :
    httpOk (chat_handler env ⟨p, r, sid, stg⟩ st).1 = true ∧
    respOf (chat_handler env ⟨p, r, sid, stg⟩ st).1 =
      some ("❌ Response error: " ++ e) := by
  obtain ⟨sb2, hsb2, heq⟩ :=
    chat_handler_valid env ⟨p, r, sid, stg⟩ st (by simp [hsid])
  rw [heq]
  refine ⟨rfl, ?_⟩
  show respOf (Except.ok ⟨sid, (generate_response env p stg r sid st).1, sb2⟩) = _
  rw [generate_response_err env p stg r sid st e hgen]
  rfl

/-- Witness for C6 under `failEnv` on a fresh session. -/
theorem c6_generation_failure_marker_witness :
    aget "s1" sampleStore1.session_scores = some zeroScoreboard ∧
    failEnv.gen (sampleStore1.chat_history ++
      [user_turn failEnv "hi" "opening" "seller" sampleStore1]) =
      Except.error "boom" ∧
    (httpOk (chat_handler failEnv ⟨"hi", "seller", "s1", "opening"⟩
       sampleStore1).1 = true ∧
     respOf (chat_handler failEnv ⟨"hi", "seller", "s1", "opening"⟩
       sampleStore1).1 = some ("❌ Response error: " ++ "boom")) :=
  ⟨by decide, rfl,
   c6_generation_failure_marker failEnv "hi" "opening" "seller" "s1" "boom"
     sampleStore1 zeroScoreboard (by decide) rfl⟩

/-- C7: a chat turn on any session appends to the one process-wide
transcript — the composed user turn, then the model turn — and the reply is
the generation oracle's answer on the entire shared transcript (all previous
turns, whatever session produced them, plus the new user turn, in insertion
order). -/
theorem c7_shared_transcript (env : Env) (p stg r sid t : String)
    (st : AppState) (sb : Scoreboard)
    (hsid : aget sid st.session_scores = some sb)
    (hgen : env.gen (st.chat_history ++ [user_turn env p stg r st]) =
      Except.ok t) :
    ((chat_handler env ⟨p, r, sid, stg⟩ st).2).chat_history =
      st.chat_history ++ [user_turn env p stg r st, ⟨"model", [t]⟩] ∧
    respOf (chat_handler env ⟨p, r, sid, stg⟩ st).1 = some t := by
  obtain ⟨sb2, hsb2, heq⟩ :=
    chat_handler_valid env ⟨p, r, sid, stg⟩ st (by simp [hsid])
  rw [heq, generate_response_ok env p stg r sid st t hgen]
  exact ⟨rfl, rfl⟩

/-- A state whose transcript already holds a turn (as if produced by another
session) and whose store holds session `"s1"`. -/
def sharedState0 : AppState :=
  ⟨[⟨"user", ["old"]⟩], [], [("s1", zeroScoreboard)]⟩

/-- Witness for C7: a chat on session `"s1"` of a state whose transcript
already holds a turn from another session. -/
theorem c7_shared_transcript_witness :
    aget "s1" sharedState0.session_scores = some zeroScoreboard ∧
    sampleEnv.gen (sharedState0.chat_history ++
      [user_turn sampleEnv "hi" "opening" "seller" sharedState0]) =
      Except.ok "ok" ∧
    (((chat_handler sampleEnv ⟨"hi", "seller", "s1", "opening"⟩
        sharedState0).2).chat_history =
      sharedState0.chat_history ++
        [user_turn sampleEnv "hi" "opening" "seller" sharedState0,
         ⟨"model", ["ok"]⟩] ∧
     respOf (chat_handler sampleEnv ⟨"hi", "seller", "s1", "opening"⟩
        sharedState0).1 = some "ok") :=
  ⟨by decide, rfl,
   c7_shared_transcript sampleEnv "hi" "opening" "seller" "s1" "ok"
     sharedState0 zeroScoreboard (by decide) rfl⟩

/-- C10: when the generation call fails on a valid session with an explicit
stage, the earlier state changes persist: the stage counter increment
remains, the user turn remains on the shared transcript, and no model turn
is appended for that call. -/
theorem c10_no_rollback_on_failure (env : Env) (p stg r sid e : String)
    (st : AppState) (sb : Scoreboard) (n : Nat)
    (hSa : stg ≠ "auto")
    (hsid : aget sid st.session_scores = some sb)
    (hn : aget stg sb = some n)
    (hgen : env.gen (st.chat_history ++ [user_turn env p stg r st]) =
      Except.error e) :
    ((chat_handler env ⟨p, r, sid, stg⟩ st).2).chat_history =
      st.chat_history ++ [user_turn env p stg r st] ∧
    aget sid ((chat_handler env ⟨p, r, sid, stg⟩ st).2).session_scores =
      some (aset stg (n + 1) sb) := by
  obtain ⟨sb2, hsb2, heq⟩ :=
    chat_handler_valid env ⟨p, r, sid, stg⟩ st (by simp [hsid])
  rw [heq, generate_response_err env p stg r sid st e hgen]
  refine ⟨rfl, ?_⟩
  show aget sid (update_stage_score (resolved_stage env p stg r) sid
    st.session_scores) = _
  rw [show resolved_stage env p stg r = stg from by simp [resolved_stage, hSa]]
  rw [update_stage_score_self stg sid _ sb n hsid hn, aget_aset_self]

/-- Witness for C10 under `failEnv` on a fresh session with stage
`"opening"`. -/
theorem c10_no_rollback_on_failure_witness :
    ("opening" : String) ≠ "auto" ∧
    aget "s1" sampleStore1.session_scores = some zeroScoreboard ∧
    aget "opening" zeroScoreboard = some 0 ∧
    (((chat_handler failEnv ⟨"hi", "seller", "s1", "opening"⟩
        sampleStore1).2).chat_history =
      sampleStore1.chat_history ++
        [user_turn failEnv "hi" "opening" "seller" sampleStore1] ∧
     aget "s1" ((chat_handler failEnv ⟨"hi", "seller", "s1", "opening"⟩
        sampleStore1).2).session_scores =
      some (aset "opening" (0 + 1) zeroScoreboard)) :=
  ⟨by decide, by decide, by decide,
   c10_no_rollback_on_failure failEnv "hi" "opening" "seller" "s1" "boom"
     sampleStore1 zeroScoreboard 0 (by decide) (by decide) (by decide) rfl⟩

/-! ### String-containment machinery for the prompt-composition claims -/

/-- `x` occurs as a contiguous substring of `s`. -/
def ContainsStr (s x : String) : Prop := ∃ a b, s = a ++ x ++ b

theorem containsStr_self (x : String) : ContainsStr x x :=
  ⟨"", "", by rw [String.empty_append, String.append_empty]⟩

theorem containsStr_appL (t s x : String) (h : ContainsStr s x) :
    ContainsStr (t ++ s) x := by
  obtain ⟨a, b, rfl⟩ := h
  exact ⟨t ++ a, b, by simp [String.append_assoc]⟩

theorem containsStr_appR (t s x : String) (h : ContainsStr s x) :
    ContainsStr (s ++ t) x := by
  obtain ⟨a, b, rfl⟩ := h
  exact ⟨a, b ++ t, by simp [String.append_assoc]⟩

theorem containsStr_trans (s y x : String) (hsy : ContainsStr s y)
    (hyx : ContainsStr y x) : ContainsStr s x := by
  obtain ⟨a, b, rfl⟩ := hsy
  obtain ⟨c, d, rfl⟩ := hyx
  exact ⟨a ++ c, d ++ b, by simp [String.append_assoc]⟩

theorem containsStr_joinSep (sep x : String) (l : List String) (h : x ∈ l) :
    ContainsStr (joinSep sep l) x := by
  induction l with
  | nil => cases h
  | cons y ys ih =>
    cases h with
    | head =>
      cases ys with
      | nil => exact containsStr_self x
      | cons z zs =>
        show ContainsStr (x ++ sep ++ joinSep sep (z :: zs)) x
        exact containsStr_appR _ _ _ (containsStr_appR _ _ _ (containsStr_self x))
    | tail _ hmem =>
      cases ys with
      | nil => cases hmem
      | cons z zs =>
        show ContainsStr (y ++ sep ++ joinSep sep (z :: zs)) x
        rw [String.append_assoc]
        exact containsStr_appL _ _ _ (containsStr_appL _ _ _ (ih hmem))

theorem string_append_eq_empty (a b : String) (h : a ++ b = "") :
    a = "" ∧ b = "" := by
  have hd : a.data ++ b.data = ([] : List Char) := by
    have := congrArg String.data h
    simpa [String.data_append] using this
  obtain ⟨ha, hb⟩ := List.append_eq_nil.mp hd
  exact ⟨String.ext ha, String.ext hb⟩

theorem fmt_product_ne_empty (p : Product) : fmt_product p ≠ "" := by
  intro h
  unfold fmt_product at h
  obtain ⟨h1, -⟩ := string_append_eq_empty _ _ h
  obtain ⟨h2, -⟩ := string_append_eq_empty _ _ h1
  obtain ⟨h3, -⟩ := string_append_eq_empty _ _ h2
  obtain ⟨h4, -⟩ := string_append_eq_empty _ _ h3
  obtain ⟨h5, -⟩ := string_append_eq_empty _ _ h4
  exact absurd h5 (by decide)

theorem joinSep_fmt_ne_empty (sep : String) (q : Product) (l : List Product) :
    joinSep sep (List.map fmt_product (q :: l)) ≠ "" := by
  cases l with
  | nil => exact fmt_product_ne_empty q
  | cons z zs =>
    show fmt_product q ++ sep ++ _ ≠ ""
    intro h
    obtain ⟨h1, -⟩ := string_append_eq_empty _ _ h
    obtain ⟨h2, -⟩ := string_append_eq_empty _ _ h1
    exact absurd h2 (fmt_product_ne_empty q)

theorem containsStr_products_text (pd : List Product) (p : Product)
    (h : p ∈ pd.take 5) : ContainsStr (products_text_of pd) (fmt_product p) := by
  unfold products_text_of
  obtain ⟨q, l, hql⟩ : ∃ q l, pd.take 5 = q :: l := by
    cases hc : pd.take 5 with
    | nil => rw [hc] at h; cases h
    | cons q l => exact ⟨q, l, rfl⟩
  rw [hql] at h ⊢
  rw [if_neg (joinSep_fmt_ne_empty _ q l)]
  exact containsStr_joinSep _ _ _ (List.mem_map_of_mem fmt_product h)

theorem containsStr_context_stage (role stage : String) :
    ContainsStr (context_of role stage) stage := by
  unfold context_of
  exact containsStr_appR _ _ _ (containsStr_appL _ _ _
    (containsStr_self stage))

theorem containsStr_full_prompt_of_ctx (role stage prompt : String)
    (pd : List Product) (lines : List String) (x : String)
    (hx : ContainsStr (context_of role stage) x) :
    ContainsStr (full_prompt_of role stage pd lines prompt) x := by
  unfold full_prompt_of
  exact containsStr_appR _ _ _ (containsStr_appR _ _ _ (containsStr_appR _ _ _
    (containsStr_appR _ _ _ (containsStr_appR _ _ _
      (containsStr_appR _ _ _ hx)))))

/-- C8: the composed prompt block is built from at most the first five
catalog entries, and it contains the role identity, the resolved stage, each
listed entry's name, price and description, and the role's script lines
whenever the script is non-empty. -/
theorem c8_prompt_composition (role stage prompt : String) (pd : List Product)
    (lines : List String) (p : Product) (line : String)
    (hp : p ∈ pd.take 5) (hline : line ∈ lines) :
    full_prompt_of role stage pd lines prompt =
      full_prompt_of role stage (pd.take 5) lines prompt ∧
    ContainsStr (full_prompt_of role stage pd lines prompt) role ∧
    ContainsStr (full_prompt_of role stage pd lines prompt) stage ∧
    ContainsStr (full_prompt_of role stage pd lines prompt)
      (p.name.getD "Unknown") ∧
    ContainsStr (full_prompt_of role stage pd lines prompt)
      (p.price.getD "N/A") ∧
    ContainsStr (full_prompt_of role stage pd lines prompt)
      (p.description.getD "") ∧
    ContainsStr (full_prompt_of role stage pd lines prompt) line := by
  have htake : full_prompt_of role stage pd lines prompt =
      full_prompt_of role stage (pd.take 5) lines prompt := by
    unfold full_prompt_of products_text_of
    simp [List.take_take]
  have hctx_role : ContainsStr (context_of role stage) role := by
    unfold context_of
    exact containsStr_appR _ _ _ (containsStr_appR _ _ _
      (containsStr_appR _ _ _ (containsStr_appL _ _ _ (containsStr_self role))))
  have hctx_stage : ContainsStr (context_of role stage) stage :=
    containsStr_context_stage role stage
  have hfull_ctx : ∀ x, ContainsStr (context_of role stage) x →
      ContainsStr (full_prompt_of role stage pd lines prompt) x :=
    fun x hx => containsStr_full_prompt_of_ctx role stage prompt pd lines x hx
  have hfull_prod : ∀ x, ContainsStr (products_text_of pd) x →
      ContainsStr (full_prompt_of role stage pd lines prompt) x := by
    intro x hx
    unfold full_prompt_of
    refine containsStr_appR _ _ _ (containsStr_appR _ _ _ (containsStr_appR _ _ _
      (containsStr_appR _ _ _ ?_)))
    exact containsStr_appL _ _ _ hx
  have hfmt : ContainsStr (full_prompt_of role stage pd lines prompt)
      (fmt_product p) := hfull_prod _ (containsStr_products_text pd p hp)
  have hname : ContainsStr (fmt_product p) (p.name.getD "Unknown") := by
    unfold fmt_product
    exact containsStr_appR _ _ _ (containsStr_appR _ _ _ (containsStr_appR _ _ _
      (containsStr_appR _ _ _ (containsStr_appL _ _ _
        (containsStr_self _)))))
  have hprice : ContainsStr (fmt_product p) (p.price.getD "N/A") := by
    unfold fmt_product
    exact containsStr_appR _ _ _ (containsStr_appR _ _ _ (containsStr_appL _ _ _
      (containsStr_self _)))
  have hdesc : ContainsStr (fmt_product p) (p.description.getD "") := by
    unfold fmt_product
    exact containsStr_appL _ _ _ (containsStr_self _)
  have hscript : ContainsStr (full_prompt_of role stage pd lines prompt) line := by
    have hne : lines.isEmpty = false := by
      cases lines with
      | nil => cases hline
      | cons a l => rfl
    have hsec : ContainsStr (script_section_of lines) line := by
      unfold script_section_of
      rw [hne]
      show ContainsStr ("\n\nScript:\n" ++ joinSep "\n" lines) line
      exact containsStr_appL _ _ _ (containsStr_joinSep _ _ _ hline)
    unfold full_prompt_of
    refine containsStr_appR _ _ _ (containsStr_appR _ _ _ (containsStr_appR _ _ _ ?_))
    exact containsStr_appL _ _ _ hsec
  exact ⟨htake, hfull_ctx _ hctx_role, hfull_ctx _ hctx_stage,
    containsStr_trans _ _ _ hfmt hname, containsStr_trans _ _ _ hfmt hprice,
    containsStr_trans _ _ _ hfmt hdesc, hscript⟩

/-- A concrete catalog record. -/
def sampleProduct : Product := ⟨some "Widget", some "9.99", some "Nice"⟩

/-- Witness for C8 on a one-entry catalog and a one-line script. -/
theorem c8_prompt_composition_witness :
    sampleProduct ∈ ([sampleProduct].take 5) ∧
    "Line1" ∈ (["Line1"] : List String) ∧
    (full_prompt_of "seller" "opening" [sampleProduct] ["Line1"] "hi" =
       full_prompt_of "seller" "opening" ([sampleProduct].take 5) ["Line1"] "hi" ∧
     ContainsStr (full_prompt_of "seller" "opening" [sampleProduct] ["Line1"]
       "hi") "seller" ∧
     ContainsStr (full_prompt_of "seller" "opening" [sampleProduct] ["Line1"]
       "hi") "opening" ∧
     ContainsStr (full_prompt_of "seller" "opening" [sampleProduct] ["Line1"]
       "hi") (sampleProduct.name.getD "Unknown") ∧
     ContainsStr (full_prompt_of "seller" "opening" [sampleProduct] ["Line1"]
       "hi") (sampleProduct.price.getD "N/A") ∧
     ContainsStr (full_prompt_of "seller" "opening" [sampleProduct] ["Line1"]
       "hi") (sampleProduct.description.getD "") ∧
     ContainsStr (full_prompt_of "seller" "opening" [sampleProduct] ["Line1"]
       "hi") "Line1") :=
  ⟨by decide, by decide,
   c8_prompt_composition "seller" "opening" "hi" [sampleProduct] ["Line1"]
     sampleProduct "Line1" (by decide) (by decide)⟩

/-- C9: a `/chat` on an existing session of a reachable state with an
explicit stage string that is neither `"auto"` nor one of the seven labels
still succeeds, changes no counter of any session and adds no scoreboard
key (the whole store is unchanged), while the invalid stage string is used
verbatim in the composed prompt. -/
theorem c9_invalid_stage_no_counter (env : Env) (p r sid stg : String)
    (st : AppState) (sb : Scoreboard)
    (hreach : Reachable st)
    (hsid : aget sid st.session_scores = some sb)
    (hauto : stg ≠ "auto")
    (hvalid : stg ∉ validStages) :
    httpOk (chat_handler env ⟨p, r, sid, stg⟩ st).1 = true ∧
    ((chat_handler env ⟨p, r, sid, stg⟩ st).2).session_scores =
      st.session_scores ∧
    user_turn env p stg r st =
      ⟨"user", [full_prompt_of r stg (effective_pd env st)
        (env.role_scripts r) p]⟩ ∧
    ContainsStr (full_prompt_of r stg (effective_pd env st)
      (env.role_scripts r) p) stg := by
  have hkeys : akeys sb = validStages := reachable_scoreKeysOK st hreach sid sb hsid
  have hstage_none : aget stg sb = none := by
    apply aget_none_of_not_mem_akeys
    rw [hkeys]
    exact hvalid
  have hres : resolved_stage env p stg r = stg := by
    simp [resolved_stage, hauto]
  have hupd : update_stage_score stg sid st.session_scores =
      st.session_scores :=
    update_stage_score_no_stage stg sid st.session_scores sb hsid hstage_none
  obtain ⟨sb2, hsb2, heq⟩ :=
    chat_handler_valid env ⟨p, r, sid, stg⟩ st (by simp [hsid])
  refine ⟨?_, ?_, ?_, ?_⟩
  · rw [heq]
    rfl
  · rw [heq]
    show (generate_response env p stg r sid st).2.session_scores = _
    rw [generate_response_scores, hres, hupd]
  · simp [user_turn, hres]
  · exact containsStr_full_prompt_of_ctx r stg p _ _ stg
      (containsStr_context_stage r stg)

/-- Witness for C9 at the reachable one-session store and the invalid stage
string `"weird"`. -/
theorem c9_invalid_stage_no_counter_witness :
    aget "s1" sampleStore1.session_scores = some zeroScoreboard ∧
    ("weird" : String) ≠ "auto" ∧
    "weird" ∉ validStages ∧
    (httpOk (chat_handler sampleEnv ⟨"hi", "seller", "s1", "weird"⟩
       sampleStore1).1 = true ∧
     ((chat_handler sampleEnv ⟨"hi", "seller", "s1", "weird"⟩
       sampleStore1).2).session_scores = sampleStore1.session_scores ∧
     user_turn sampleEnv "hi" "weird" "seller" sampleStore1 =
       ⟨"user", [full_prompt_of "seller" "weird"
         (effective_pd sampleEnv sampleStore1)
         (sampleEnv.role_scripts "seller") "hi"]⟩ ∧
     ContainsStr (full_prompt_of "seller" "weird"
       (effective_pd sampleEnv sampleStore1)
       (sampleEnv.role_scripts "seller") "hi") "weird") :=
  ⟨by decide, by decide, by decide,
   c9_invalid_stage_no_counter sampleEnv "hi" "seller" "s1" "weird"
     sampleStore1 zeroScoreboard
     (Reachable.start ⟨[], [], []⟩ "s1" (Reachable.init []))
     (by decide) (by decide) (by decide)⟩

end RoleplayApp
